import Mathlib

/-!
Verification of the instance bootstrap module of the `vulkan-render`
repository (`src/instance.rs`): a shallow embedding of the data model
(`VulkanApiVersion`, `VulkanDebugInfoStrategy`, `InstanceForWindow`), of
the two default debug callbacks, of `InstanceForWindow::new` /
`with_window` / `api_version`, and of the `Drop` implementation.

Modelling conventions:
- Vulkan bit-flag values (`DebugUtilsMessageSeverityFlagsEXT`,
  `DebugUtilsMessageTypeFlagsEXT`, `InstanceCreateFlags`) are `Nat`
  bitmasks with the numeric values of the `ash`/Vulkan headers.
- Raw C string pointers are `Option String`: `none` is a null pointer.
- The callbacks return `Option CallbackResult`: `none` marks undefined
  behavior (a dereference of a null pointer), `some` a defined outcome,
  which either prints a line and returns a `vk::Bool32`, or diverts into
  an unrecoverable Rust `panic` carrying a message.
- External loader calls (`enumerate_required_extensions`,
  `create_instance`, `create_debug_utils_messenger`) are modelled on
  their success path: the platform extension list is a parameter of
  `InstanceForWindow.new`, and the create-info records passed to the
  loader are returned in a `NewTrace` so that theorems can inspect them.
- The `Arc<ash::Instance>` strong count is an explicit `Nat` field;
  cloning via the `handle()` accessor increments it.
-/

namespace vk

/-- `ash::vk::FALSE : Bool32` — the value `0`, returned by both debug
callbacks ("do not suppress the call"). -/
def FALSE : Nat := 0

/-- `VK_MAKE_API_VERSION(variant, major, minor, patch)` as in the Vulkan
headers: `(variant << 29) | (major << 22) | (minor << 12) | patch`. -/
def make_api_version (variant major minor patch : Nat) : Nat :=
  (variant <<< 29) ||| (major <<< 22) ||| (minor <<< 12) ||| patch

/-- `ash::vk::API_VERSION_1_0`. -/
def API_VERSION_1_0 : Nat := make_api_version 0 1 0 0

/-- `ash::vk::API_VERSION_1_1`. -/
def API_VERSION_1_1 : Nat := make_api_version 0 1 1 0

/-- `ash::vk::API_VERSION_1_2`. -/
def API_VERSION_1_2 : Nat := make_api_version 0 1 2 0

/-- `ash::vk::API_VERSION_1_3`. -/
def API_VERSION_1_3 : Nat := make_api_version 0 1 3 0

/-- `ash::vk::KHR_PORTABILITY_ENUMERATION_NAME`. -/
def KHR_PORTABILITY_ENUMERATION_NAME : String := "VK_KHR_portability_enumeration"

/-- `ash::vk::KHR_GET_PHYSICAL_DEVICE_PROPERTIES2_NAME`. -/
def KHR_GET_PHYSICAL_DEVICE_PROPERTIES2_NAME : String :=
  "VK_KHR_get_physical_device_properties2"

/-- `ash::vk::EXT_DEBUG_UTILS_NAME`. -/
def EXT_DEBUG_UTILS_NAME : String := "VK_EXT_debug_utils"

namespace DebugUtilsMessageSeverityFlagsEXT

/-- `VK_DEBUG_UTILS_MESSAGE_SEVERITY_VERBOSE_BIT_EXT = 0x1`. -/
def VERBOSE : Nat := 0x1

/-- `VK_DEBUG_UTILS_MESSAGE_SEVERITY_INFO_BIT_EXT = 0x10`. -/
def INFO : Nat := 0x10

/-- `VK_DEBUG_UTILS_MESSAGE_SEVERITY_WARNING_BIT_EXT = 0x100`. -/
def WARNING : Nat := 0x100

/-- `VK_DEBUG_UTILS_MESSAGE_SEVERITY_ERROR_BIT_EXT = 0x1000`. -/
def ERROR : Nat := 0x1000

end DebugUtilsMessageSeverityFlagsEXT

namespace DebugUtilsMessageTypeFlagsEXT

/-- `VK_DEBUG_UTILS_MESSAGE_TYPE_GENERAL_BIT_EXT = 0x1`. -/
def GENERAL : Nat := 0x1

/-- `VK_DEBUG_UTILS_MESSAGE_TYPE_VALIDATION_BIT_EXT = 0x2`. -/
def VALIDATION : Nat := 0x2

/-- `VK_DEBUG_UTILS_MESSAGE_TYPE_PERFORMANCE_BIT_EXT = 0x4`. -/
def PERFORMANCE : Nat := 0x4

/-- `VK_DEBUG_UTILS_MESSAGE_TYPE_DEVICE_ADDRESS_BINDING_BIT_EXT = 0x8`. -/
def DEVICE_ADDRESS_BINDING : Nat := 0x8

end DebugUtilsMessageTypeFlagsEXT

namespace InstanceCreateFlags

/-- `vk::InstanceCreateFlags::default()` — the empty flag set. -/
def DEFAULT : Nat := 0

/-- `vk::InstanceCreateFlags::ENUMERATE_PORTABILITY_KHR = 0x1`. -/
def ENUMERATE_PORTABILITY_KHR : Nat := 0x1

end InstanceCreateFlags

/-- The fields of `vk::DebugUtilsMessengerCallbackDataEXT` read by the two
default callbacks: `message_id_number : i32`, and the two C string
pointers (`none` models a null pointer). -/
structure DebugUtilsMessengerCallbackDataEXT where
  message_id_number : Int
  p_message_id_name : Option String
  p_message : Option String
deriving DecidableEq

end vk

/-- One step of `ash`'s `debug_flags` pretty-printer (the generated
`fmt::Debug` of Vulkan flag types): walk the table of known bits, print
the names of the set bits joined by a vertical-bar separator while
clearing them from the accumulator (`accum &= !bit`; as the test
guarantees the bit pattern is contained in `accum`, XOR clears exactly
those bits). Returns the remaining accumulator, the "nothing printed
yet" flag and the output. -/
def debug_flags_go :
    List (Nat × String) → Nat → Bool → String → Nat × Bool × String
  | [], accum, first, out => (accum, first, out)
  | (bit, name) :: known, accum, first, out =>
    if bit ≠ 0 ∧ accum &&& bit = bit then
      let out := if first then out ++ name else out ++ " | " ++ name
      debug_flags_go known (accum ^^^ bit) false out
    else
      debug_flags_go known accum first out

/-- `ash`'s `debug_flags` helper: after printing the known bits, any
remaining unknown bits are written in binary. -/
def debug_flags (known : List (Nat × String)) (value : Nat) : String :=
  match debug_flags_go known value true "" with
  | (accum, first, out) =>
    if accum ≠ 0 then
      (if first then out else out ++ " | ") ++ String.mk (Nat.toDigits 2 accum)
    else out

/-- The generated `fmt::Debug` of `vk::DebugUtilsMessageSeverityFlagsEXT`. -/
def debugReprSeverity (value : Nat) : String :=
  debug_flags
    [(vk.DebugUtilsMessageSeverityFlagsEXT.VERBOSE, "VERBOSE"),
     (vk.DebugUtilsMessageSeverityFlagsEXT.INFO, "INFO"),
     (vk.DebugUtilsMessageSeverityFlagsEXT.WARNING, "WARNING"),
     (vk.DebugUtilsMessageSeverityFlagsEXT.ERROR, "ERROR")] value

/-- The generated `fmt::Debug` of `vk::DebugUtilsMessageTypeFlagsEXT`. -/
def debugReprType (value : Nat) : String :=
  debug_flags
    [(vk.DebugUtilsMessageTypeFlagsEXT.GENERAL, "GENERAL"),
     (vk.DebugUtilsMessageTypeFlagsEXT.VALIDATION, "VALIDATION"),
     (vk.DebugUtilsMessageTypeFlagsEXT.PERFORMANCE, "PERFORMANCE"),
     (vk.DebugUtilsMessageTypeFlagsEXT.DEVICE_ADDRESS_BINDING,
       "DEVICE_ADDRESS_BINDING")] value

/-- The format string shared by all four `println` / `panic` sites of the
two default callbacks in `src/instance.rs`:
`"{message_severity:?}:\n{message_type:?} [{message_id_name} ({message_id_number})] : {message}\n"`. -/
def formatDebugMessage (message_severity message_type : Nat)
    (message_id_name : String) (message_id_number : Int)
    (message : String) : String :=
  debugReprSeverity message_severity ++ ":\n" ++ debugReprType message_type
    ++ " [" ++ message_id_name ++ " (" ++ message_id_number.repr ++ ")] : "
    ++ message ++ "\n"

/-- The defined outcomes of one debug-callback invocation: either the
callback printed `output` to stdout (`println` appends one more trailing
newline on the device) and returned the `vk::Bool32` value `ret`, or it
diverted into an unrecoverable Rust `panic` carrying `message`. -/
inductive CallbackResult
  | returned (output : String) (ret : Nat)
  | aborted (message : String)
deriving DecidableEq

/-- The text a `CallbackResult` carries: the printed line, or the abort
message. -/
def CallbackResult.text : CallbackResult → String
  | .returned output _ => output
  | .aborted message => message

/-- `vulkan_debug_callback_print_all` (src/instance.rs:161-187).
`p_callback_data` is the raw callback-data pointer; the source
dereferences it unconditionally (`let callback_data = *p_callback_data`),
so a null pointer is undefined behavior, modelled as `none`.  The two
C string fields are null-checked and replaced by the empty string; the
formatted message is printed and `vk::FALSE` returned. -/
def vulkan_debug_callback_print_all (message_severity message_type : Nat)
    (p_callback_data : Option vk.DebugUtilsMessengerCallbackDataEXT) :
    Option CallbackResult :=
  match p_callback_data with
  | none => none
  | some callback_data =>
    let message_id_number := callback_data.message_id_number
    let message_id_name :=
      match callback_data.p_message_id_name with
      | none => ""
      | some s => s
    let message :=
      match callback_data.p_message with
      | none => ""
      | some s => s
    some (.returned
      (formatDebugMessage message_severity message_type message_id_name
        message_id_number message)
      vk.FALSE)

/-- `vulkan_debug_callback_panic_on_errors_print_others`
(src/instance.rs:189-221).  Same shape as the print-all callback, but if
`message_severity == vk::DebugUtilsMessageSeverityFlagsEXT::ERROR` the
formatted message is raised as an unrecoverable Rust `panic` instead of
being printed. -/
def vulkan_debug_callback_panic_on_errors_print_others
    (message_severity message_type : Nat)
    (p_callback_data : Option vk.DebugUtilsMessengerCallbackDataEXT) :
    Option CallbackResult :=
  match p_callback_data with
  | none => none
  | some callback_data =>
    let message_id_number := callback_data.message_id_number
    let message_id_name :=
      match callback_data.p_message_id_name with
      | none => ""
      | some s => s
    let message :=
      match callback_data.p_message with
      | none => ""
      | some s => s
    if message_severity = vk.DebugUtilsMessageSeverityFlagsEXT.ERROR then
      some (.aborted
        (formatDebugMessage message_severity message_type message_id_name
          message_id_number message))
    else
      some (.returned
        (formatDebugMessage message_severity message_type message_id_name
          message_id_number message)
        vk.FALSE)

/-- The two module-level callback functions of `src/instance.rs`, as the
values a `vk::PFN_vkDebugUtilsMessengerCallbackEXT` field can name. -/
inductive DebugCallbackFn
  | printAll
  | panicOnErrorsPrintOthers
deriving DecidableEq

/-- `VulkanDebugInfoStrategy` (src/instance.rs:148-153).  The two
callback-carrying variants hold a `PFN_vkDebugUtilsMessengerCallbackEXT`,
an `Option` of a function pointer. -/
inductive VulkanDebugInfoStrategy
  | Idle
  | PrintAll (p_fn : Option DebugCallbackFn)
  | PanicOnErrorsPrintOthers (p_fn : Option DebugCallbackFn)
deriving DecidableEq

/-- `VulkanDebugInfoStrategy::DEFAULT_PRINT_ALL` (src/instance.rs:156). -/
def VulkanDebugInfoStrategy.DEFAULT_PRINT_ALL : VulkanDebugInfoStrategy :=
  .PrintAll (some .printAll)

/-- `VulkanDebugInfoStrategy::DEFAULT_PANIC_ON_ERRORS`
(src/instance.rs:157-158). -/
def VulkanDebugInfoStrategy.DEFAULT_PANIC_ON_ERRORS : VulkanDebugInfoStrategy :=
  .PanicOnErrorsPrintOthers (some .panicOnErrorsPrintOthers)

/-- `VulkanApiVersion` (src/instance.rs:14-20). -/
inductive VulkanApiVersion
  | V1_0
  | V1_1
  | V1_2
  | V1_3
deriving DecidableEq

/-- `const VALIDATION_LAYER_NAME` (src/instance.rs:11-12). -/
def VALIDATION_LAYER_NAME : String := "VK_LAYER_KHRONOS_validation"

/-- The `vk::DebugUtilsMessengerCreateInfoEXT` record assembled in
`InstanceForWindow::new` (src/instance.rs:87-98). -/
structure DebugUtilsMessengerCreateInfoEXT where
  message_severity : Nat
  message_type : Nat
  pfn_user_callback : Option DebugCallbackFn
deriving DecidableEq

/-- The `vk::InstanceCreateInfo` parameters assembled in
`InstanceForWindow::new` and passed to `create_instance`
(src/instance.rs:69-73): the `api_version` of the application info, the
extension list, the layer list and the creation flags. -/
structure InstanceCreateInfo where
  api_version : Nat
  enabled_extension_names : List String
  enabled_layer_names : List String
  flags : Nat
deriving DecidableEq

/-- `InstanceForWindow` (src/instance.rs:22-29).  `handleStrongCount` is
the strong count of the `Arc<ash::Instance>` handle (1 right after
`Arc::new`; the `handle()` accessor clones it).  `debug_worker` records,
when present, the create info of the
`(debug_utils::Instance, DebugUtilsMessengerEXT)` pair. -/
structure InstanceForWindow where
  handleStrongCount : Nat
  vk_api_version : VulkanApiVersion
  debug_worker : Option DebugUtilsMessengerCreateInfoEXT
deriving DecidableEq

/-- The observable trace of one `InstanceForWindow::new` run on the
success path: the create-info records handed to the loader, and the
returned value. -/
structure NewTrace where
  instance_create_info : InstanceCreateInfo
  messenger_create_info : Option DebugUtilsMessengerCreateInfoEXT
  result : InstanceForWindow
deriving DecidableEq

/-- `InstanceForWindow::new` (src/instance.rs:32-114) on the success path.
`window_extensions` stands for the result of
`ash_window::enumerate_required_extensions(display_handle)`, the
platform-required surface extensions (an external, pure enumeration). -/
def InstanceForWindow.new (window_extensions : List String)
    (debug_strategy : VulkanDebugInfoStrategy)
    (vulkan_api_version : VulkanApiVersion) : NewTrace :=
  let extensions_for_window := window_extensions
    ++ [vk.KHR_PORTABILITY_ENUMERATION_NAME,
        vk.KHR_GET_PHYSICAL_DEVICE_PROPERTIES2_NAME]
  let extensions_for_window :=
    match debug_strategy with
    | .Idle => extensions_for_window
    | .PrintAll _ => extensions_for_window ++ [vk.EXT_DEBUG_UTILS_NAME]
    | .PanicOnErrorsPrintOthers _ =>
      extensions_for_window ++ [vk.EXT_DEBUG_UTILS_NAME]
  let api_version :=
    match vulkan_api_version with
    | .V1_0 => vk.API_VERSION_1_0
    | .V1_1 => vk.API_VERSION_1_1
    | .V1_2 => vk.API_VERSION_1_2
    | .V1_3 => vk.API_VERSION_1_3
  let enabled_layers : List String :=
    match debug_strategy with
    | .Idle => []
    | .PrintAll _ => [VALIDATION_LAYER_NAME]
    | .PanicOnErrorsPrintOthers _ => [VALIDATION_LAYER_NAME]
  let instance_create_flags :=
    vk.InstanceCreateFlags.DEFAULT ||| vk.InstanceCreateFlags.ENUMERATE_PORTABILITY_KHR
  let instance_create_info : InstanceCreateInfo :=
    { api_version := api_version
      enabled_extension_names := extensions_for_window
      enabled_layer_names := enabled_layers
      flags := instance_create_flags }
  let debug_worker :=
    match debug_strategy with
    | .Idle => none
    | .PrintAll p_fn | .PanicOnErrorsPrintOthers p_fn =>
      some { message_severity :=
               vk.DebugUtilsMessageSeverityFlagsEXT.ERROR
                 ||| vk.DebugUtilsMessageSeverityFlagsEXT.WARNING
                 ||| vk.DebugUtilsMessageSeverityFlagsEXT.INFO
             message_type :=
               vk.DebugUtilsMessageTypeFlagsEXT.GENERAL
                 ||| vk.DebugUtilsMessageTypeFlagsEXT.VALIDATION
                 ||| vk.DebugUtilsMessageTypeFlagsEXT.PERFORMANCE
             pfn_user_callback := p_fn : DebugUtilsMessengerCreateInfoEXT }
  { instance_create_info := instance_create_info
    messenger_create_info := debug_worker
    result :=
      { handleStrongCount := 1
        vk_api_version := vulkan_api_version
        debug_worker := debug_worker } }

/-- `InstanceForWindow::with_window` (src/instance.rs:116-122). -/
def InstanceForWindow.with_window (window_extensions : List String) : NewTrace :=
  InstanceForWindow.new window_extensions
    VulkanDebugInfoStrategy.DEFAULT_PANIC_ON_ERRORS
    VulkanApiVersion.V1_1

/-- `InstanceForWindow::api_version` accessor (src/instance.rs:124-126). -/
def InstanceForWindow.api_version (self : InstanceForWindow) : VulkanApiVersion :=
  self.vk_api_version

/-- `InstanceForWindow::handle` accessor (src/instance.rs:128-130): clones
the `Arc`, incrementing the strong count.  Returns the state with the new
count. -/
def InstanceForWindow.handle (self : InstanceForWindow) : InstanceForWindow :=
  { self with handleStrongCount := self.handleStrongCount + 1 }

/-- The loader calls `Drop` can make during teardown. -/
inductive TeardownEvent
  | destroy_debug_utils_messenger
  | destroy_instance
deriving DecidableEq

/-- The outcome of `Drop::drop`: the assertion failed (a Rust `panic`
with the given message), or teardown completed with the given ordered
loader calls. -/
inductive DropResult
  | panicked (message : String)
  | completed (calls : List TeardownEvent)
deriving DecidableEq

/-- `impl Drop for InstanceForWindow` (src/instance.rs:133-146):
`assert!(Arc::strong_count(&self.handle) == 1)` first; then, if a debug
worker exists, `destroy_debug_utils_messenger`, and finally
`destroy_instance`. -/
def InstanceForWindow.drop (self : InstanceForWindow) : DropResult :=
  if self.handleStrongCount = 1 then
    .completed
      ((match self.debug_worker with
        | some _ => [TeardownEvent.destroy_debug_utils_messenger]
        | none => [])
        ++ [TeardownEvent.destroy_instance])
  else
    .panicked "Attempted to drop instance while being used by others"

/-- The spec-side convenience constructor, for comparison with the
source's `with_window`.  Modelled from the spec: "A convenience entry
point `createForWindow(window)` fixes the strategy to
`PanicOnErrorsPrintOthers` and the version to 1.1". -/
def createForWindow_spec (window_extensions : List String) : NewTrace :=
  InstanceForWindow.new window_extensions
    (VulkanDebugInfoStrategy.PanicOnErrorsPrintOthers
      (some DebugCallbackFn.panicOnErrorsPrintOthers))
    VulkanApiVersion.V1_1

/-- The format text of both callbacks when both string pointers are null,
with the empty string substituted twice. -/
def formattedCallbackMessage (message_severity message_type : Nat)
    (d : vk.DebugUtilsMessengerCallbackDataEXT) : String :=
  formatDebugMessage message_severity message_type
    (d.p_message_id_name.getD "") d.message_id_number (d.p_message.getD "")

/-- Claim C1: on an ERROR-severity invocation the
`PanicOnErrorsPrintOthers` default callback aborts with the formatted
message while the `PrintAll` default callback prints it and returns
`vk::FALSE`; on any other severity both callbacks print the formatted
message and return `vk::FALSE`. -/
theorem C1_error_severity_dispatch (message_type : Nat)
    (d : vk.DebugUtilsMessengerCallbackDataEXT) (sev : Nat) :
    vulkan_debug_callback_panic_on_errors_print_others
        vk.DebugUtilsMessageSeverityFlagsEXT.ERROR message_type (some d)
      = some (.aborted (formattedCallbackMessage
          vk.DebugUtilsMessageSeverityFlagsEXT.ERROR message_type d))
    ∧ vulkan_debug_callback_print_all
        vk.DebugUtilsMessageSeverityFlagsEXT.ERROR message_type (some d)
      = some (.returned (formattedCallbackMessage
          vk.DebugUtilsMessageSeverityFlagsEXT.ERROR message_type d) vk.FALSE)
    ∧ (sev ≠ vk.DebugUtilsMessageSeverityFlagsEXT.ERROR →
        vulkan_debug_callback_panic_on_errors_print_others sev message_type (some d)
          = some (.returned (formattedCallbackMessage sev message_type d) vk.FALSE)
        ∧ vulkan_debug_callback_print_all sev message_type (some d)
          = some (.returned (formattedCallbackMessage sev message_type d) vk.FALSE)) := by
  obtain ⟨n, idn, msg⟩ := d
  refine ⟨?_, ?_, fun h => ⟨?_, ?_⟩⟩ <;>
    cases idn <;> cases msg <;>
      simp [vulkan_debug_callback_panic_on_errors_print_others,
        vulkan_debug_callback_print_all, formattedCallbackMessage,
        Option.getD] <;>
      simp_all

/-- Witness for C1 at severity WARNING (16 would be INFO; 256 is
WARNING), message type VALIDATION, and concrete callback data. -/
theorem C1_error_severity_dispatch_witness :
    ((0x100 : Nat) ≠ vk.DebugUtilsMessageSeverityFlagsEXT.ERROR)
    ∧ vulkan_debug_callback_panic_on_errors_print_others 0x100 0x2
        (some ⟨7, some "id", some "text"⟩)
      = some (.returned (formattedCallbackMessage 0x100 0x2
          ⟨7, some "id", some "text"⟩) vk.FALSE) :=
  ⟨by decide,
    ((C1_error_severity_dispatch 0x2 ⟨7, some "id", some "text"⟩ 0x100).2.2
      (by decide)).1⟩

/-- Claim C2: dropping an `InstanceForWindow` whose handle is still
shared (strong count at least 2) panics with the ownership-violation
assertion message instead of tearing down; teardown completes only when
the strong count is exactly one.  Holds for every debug-worker state,
hence for every debug strategy. -/
theorem C2_drop_refcount_guard (self : InstanceForWindow) :
    (2 ≤ self.handleStrongCount →
      self.drop = .panicked "Attempted to drop instance while being used by others")
    ∧ (∀ calls, self.drop = .completed calls → self.handleStrongCount = 1) := by
  constructor
  · intro h
    have hne : ¬ self.handleStrongCount = 1 := by omega
    simp [InstanceForWindow.drop, hne]
  · intro calls h
    by_contra hne
    simp [InstanceForWindow.drop, hne] at h

/-- Witness for C2: an instance created by `new` and then shared once via
the `handle()` accessor has strong count 2, and dropping it panics. -/
theorem C2_drop_refcount_guard_witness :
    (2 ≤ ((InstanceForWindow.new ["VK_KHR_surface"]
        VulkanDebugInfoStrategy.DEFAULT_PANIC_ON_ERRORS .V1_1).result.handle).handleStrongCount)
    ∧ ((InstanceForWindow.new ["VK_KHR_surface"]
        VulkanDebugInfoStrategy.DEFAULT_PANIC_ON_ERRORS .V1_1).result.handle).drop
      = .panicked "Attempted to drop instance while being used by others" :=
  ⟨by decide,
    (C2_drop_refcount_guard ((InstanceForWindow.new ["VK_KHR_surface"]
        VulkanDebugInfoStrategy.DEFAULT_PANIC_ON_ERRORS .V1_1).result.handle)).1
      (by decide)⟩

/-- Claim C3: when the last reference is dropped and a debug messenger is
active, teardown issues `destroy_debug_utils_messenger` strictly before
`destroy_instance`; the instance is never destroyed while its messenger
is alive. -/
theorem C3_teardown_order (self : InstanceForWindow)
    (w : DebugUtilsMessengerCreateInfoEXT)
    (hw : self.debug_worker = some w) (hc : self.handleStrongCount = 1) :
    self.drop = .completed
      [TeardownEvent.destroy_debug_utils_messenger,
       TeardownEvent.destroy_instance] := by
  simp [InstanceForWindow.drop, hc, hw]

/-- Witness for C3: the instance freshly created with the print-all
default strategy has an active messenger and strong count one, and its
drop destroys the messenger first. -/
theorem C3_teardown_order_witness :
    ((InstanceForWindow.new [] VulkanDebugInfoStrategy.DEFAULT_PRINT_ALL
        .V1_0).result.debug_worker = some ⟨4368, 7, some .printAll⟩
      ∧ (InstanceForWindow.new [] VulkanDebugInfoStrategy.DEFAULT_PRINT_ALL
          .V1_0).result.handleStrongCount = 1)
    ∧ (InstanceForWindow.new [] VulkanDebugInfoStrategy.DEFAULT_PRINT_ALL
        .V1_0).result.drop
      = .completed [TeardownEvent.destroy_debug_utils_messenger,
          TeardownEvent.destroy_instance] :=
  ⟨⟨by decide, by decide⟩,
    C3_teardown_order
      ((InstanceForWindow.new [] VulkanDebugInfoStrategy.DEFAULT_PRINT_ALL
        .V1_0).result)
      ⟨4368, 7, some .printAll⟩ (by decide) (by decide)⟩

/-- Claim C4: provided the platform surface-extension list does not itself
name the debug-utils extension, the extension list passed to instance
creation contains the debug-utils extension name exactly when the
strategy is not `Idle`, and a messenger create info is assembled exactly
when the strategy is not `Idle`. -/
theorem C4_debug_utils_extension_iff_not_idle (window_extensions : List String)
    (debug_strategy : VulkanDebugInfoStrategy) (v : VulkanApiVersion)
    (h : vk.EXT_DEBUG_UTILS_NAME ∉ window_extensions) :
    (vk.EXT_DEBUG_UTILS_NAME ∈
        (InstanceForWindow.new window_extensions debug_strategy
          v).instance_create_info.enabled_extension_names
      ↔ debug_strategy ≠ .Idle)
    ∧ ((InstanceForWindow.new window_extensions debug_strategy
          v).messenger_create_info.isSome
      ↔ debug_strategy ≠ .Idle) := by
  have h1 : vk.EXT_DEBUG_UTILS_NAME ≠ vk.KHR_PORTABILITY_ENUMERATION_NAME := by
    decide
  have h2 : vk.EXT_DEBUG_UTILS_NAME ≠ vk.KHR_GET_PHYSICAL_DEVICE_PROPERTIES2_NAME := by
    decide
  cases debug_strategy <;>
    simp [InstanceForWindow.new, h, h1, h2]

/-- Witness for C4 at a concrete platform extension list, for the `Idle`
strategy. -/
theorem C4_debug_utils_extension_iff_not_idle_witness :
    (vk.EXT_DEBUG_UTILS_NAME ∉ ["VK_KHR_surface", "VK_KHR_xlib_surface"])
    ∧ ((vk.EXT_DEBUG_UTILS_NAME ∈
          (InstanceForWindow.new ["VK_KHR_surface", "VK_KHR_xlib_surface"]
            .Idle .V1_3).instance_create_info.enabled_extension_names
        ↔ (VulkanDebugInfoStrategy.Idle ≠ .Idle))
      ∧ ((InstanceForWindow.new ["VK_KHR_surface", "VK_KHR_xlib_surface"]
            .Idle .V1_3).messenger_create_info.isSome
        ↔ (VulkanDebugInfoStrategy.Idle ≠ .Idle))) :=
  ⟨by decide,
    C4_debug_utils_extension_iff_not_idle
      ["VK_KHR_surface", "VK_KHR_xlib_surface"] .Idle .V1_3 (by decide)⟩

/-- Claim C5: the layer list passed to instance creation is empty for
`Idle` and is exactly the one-element list holding
`VK_LAYER_KHRONOS_validation` for `PrintAll` and
`PanicOnErrorsPrintOthers`, whatever callback pointer they carry. -/
theorem C5_layer_list (window_extensions : List String) (v : VulkanApiVersion)
    (p : Option DebugCallbackFn) :
    (InstanceForWindow.new window_extensions .Idle
        v).instance_create_info.enabled_layer_names = []
    ∧ (InstanceForWindow.new window_extensions (.PrintAll p)
        v).instance_create_info.enabled_layer_names = [VALIDATION_LAYER_NAME]
    ∧ (InstanceForWindow.new window_extensions (.PanicOnErrorsPrintOthers p)
        v).instance_create_info.enabled_layer_names = [VALIDATION_LAYER_NAME] :=
  ⟨rfl, rfl, rfl⟩

/-- Claim C6: for every strategy and every one of the four versions, the
created instance records the requested version unchanged and the
`api_version` accessor returns exactly it. -/
theorem C6_api_version_recorded (window_extensions : List String)
    (debug_strategy : VulkanDebugInfoStrategy) (v : VulkanApiVersion) :
    (InstanceForWindow.new window_extensions debug_strategy
        v).result.vk_api_version = v
    ∧ (InstanceForWindow.new window_extensions debug_strategy
        v).result.api_version = v :=
  ⟨rfl, rfl⟩

/-- Claim C7: for every combination of message pointer and
message-id-name pointer — either one null alone, both null, or neither —
both default callbacks complete formatting with a defined result whose
text substitutes the empty string for exactly the null fields
(`Option.getD _ ""` is the empty string on a null pointer and the
pointed-to text otherwise). -/
theorem C7_null_fields_tolerated (sev ty : Nat) (n : Int)
    (idn msg : Option String) :
    (vulkan_debug_callback_print_all sev ty
        (some ⟨n, idn, msg⟩)).map CallbackResult.text
      = some (formatDebugMessage sev ty (idn.getD "") n (msg.getD ""))
    ∧ (vulkan_debug_callback_panic_on_errors_print_others sev ty
        (some ⟨n, idn, msg⟩)).map CallbackResult.text
      = some (formatDebugMessage sev ty (idn.getD "") n (msg.getD "")) := by
  constructor
  · cases idn <;> cases msg <;>
      simp [vulkan_debug_callback_print_all, CallbackResult.text, Option.getD]
  · by_cases h : sev = vk.DebugUtilsMessageSeverityFlagsEXT.ERROR <;>
      cases idn <;> cases msg <;>
        simp [vulkan_debug_callback_panic_on_errors_print_others, h,
          CallbackResult.text, Option.getD]

/-- Claim C8: for every strategy and version, the two portability
extensions are appended immediately after the platform window extensions,
and the creation flags carry `ENUMERATE_PORTABILITY_KHR`. -/
theorem C8_portability_appended (window_extensions : List String)
    (debug_strategy : VulkanDebugInfoStrategy) (v : VulkanApiVersion) :
    (∃ rest,
      (InstanceForWindow.new window_extensions debug_strategy
          v).instance_create_info.enabled_extension_names
        = window_extensions
          ++ [vk.KHR_PORTABILITY_ENUMERATION_NAME,
              vk.KHR_GET_PHYSICAL_DEVICE_PROPERTIES2_NAME]
          ++ rest)
    ∧ (InstanceForWindow.new window_extensions debug_strategy
          v).instance_create_info.flags
        &&& vk.InstanceCreateFlags.ENUMERATE_PORTABILITY_KHR
      = vk.InstanceCreateFlags.ENUMERATE_PORTABILITY_KHR := by
  refine ⟨?_, by cases debug_strategy <;> simp [InstanceForWindow.new] <;> rfl⟩
  cases debug_strategy
  · exact ⟨[], by simp [InstanceForWindow.new]⟩
  · exact ⟨[vk.EXT_DEBUG_UTILS_NAME], by simp [InstanceForWindow.new]⟩
  · exact ⟨[vk.EXT_DEBUG_UTILS_NAME], by simp [InstanceForWindow.new]⟩

/-- Claim C9: the convenience constructor `with_window` is the general
constructor with the strategy fixed to the default
`PanicOnErrorsPrintOthers` policy and the version fixed to 1.1, and it
agrees with the spec-side `createForWindow` description. -/
theorem C9_with_window_defaults (window_extensions : List String) :
    InstanceForWindow.with_window window_extensions
      = InstanceForWindow.new window_extensions
          (.PanicOnErrorsPrintOthers (some .panicOnErrorsPrintOthers)) .V1_1
    ∧ InstanceForWindow.with_window window_extensions
      = createForWindow_spec window_extensions :=
  ⟨rfl, rfl⟩

/-- Claim C10: both default callbacks dereference the callback-data
pointer unconditionally, so a null callback-data pointer is undefined
behavior (no defined result), while any non-null callback data — even
with null inner string fields — yields a defined result: the null
tolerance covers only the fields inside the callback data. -/
theorem C10_callback_data_pointer_precondition (sev ty : Nat) :
    (vulkan_debug_callback_print_all sev ty none = none
      ∧ vulkan_debug_callback_panic_on_errors_print_others sev ty none = none)
    ∧ ∀ d : vk.DebugUtilsMessengerCallbackDataEXT,
        (vulkan_debug_callback_print_all sev ty (some d)).isSome
        ∧ (vulkan_debug_callback_panic_on_errors_print_others sev ty
            (some d)).isSome := by
  refine ⟨⟨rfl, rfl⟩, fun d => ⟨rfl, ?_⟩⟩
  by_cases h : sev = vk.DebugUtilsMessageSeverityFlagsEXT.ERROR <;>
    simp [vulkan_debug_callback_panic_on_errors_print_others, h]
